import Mathlib

/-!
Shallow embedding of the `gcsa` Event model (`src/gcsa/event.py`) and proofs about
its construction, validation, mutation and comparison behaviour.

Python values are modelled as follows: a `datetime.date` is a year/month/day triple;
a `datetime.datetime` is a date plus an hour/minute time of day together with an
optional timezone name (`none` models a naive datetime); `beautiful_date.BeautifulDate`
is a separate constructor of the input type, since `Event.__init__` normalises it with
`insure_date`. Raised exceptions are modelled with `Except`: `TypeError` and
`ValueError` carry their message strings.
-/

namespace Gcsa

/-- Gregorian calendar date (year, month, day), modelling Python's `datetime.date`. -/
structure Date where
  year : Nat
  month : Nat
  day : Nat
deriving DecidableEq

/-- Gregorian leap-year test. -/
def isLeap (y : Nat) : Bool :=
  (y % 4 == 0 && y % 100 != 0) || y % 400 == 0

/-- Number of days in a month of a given year. -/
def daysInMonth (y m : Nat) : Nat :=
  if m == 2 then (if isLeap y then 29 else 28)
  else if m == 4 || m == 6 || m == 9 || m == 11 then 30
  else 31

/-- Successor date: Python's `d + timedelta(days=1)` on a valid date. -/
def nextDay (d : Date) : Date :=
  if d.day < daysInMonth d.year d.month then ⟨d.year, d.month, d.day + 1⟩
  else if d.month < 12 then ⟨d.year, d.month + 1, 1⟩
  else ⟨d.year + 1, 1, 1⟩

/-- Proleptic Gregorian ordinal of a date, as Python's `date.toordinal`. -/
def toOrdinal (d : Date) : Nat :=
  let y := d.year - 1
  y * 365 + y / 4 - y / 100 + y / 400
    + (List.range (d.month - 1)).foldl (fun acc i => acc + daysInMonth d.year (i + 1)) 0
    + d.day

/-- Time of day (hour, minute). -/
structure Time where
  hour : Nat
  minute : Nat
deriving DecidableEq

/-- Naive (zone-free) datetime value. -/
structure NaiveDT where
  date : Date
  time : Time
deriving DecidableEq

/-- Python's `dt + timedelta(hours=1)` on the naive part of a datetime
(the tzinfo, when present, is preserved unchanged by timedelta addition). -/
def addOneHour (n : NaiveDT) : NaiveDT :=
  if n.time.hour < 23 then ⟨n.date, ⟨n.time.hour + 1, n.time.minute⟩⟩
  else ⟨nextDay n.date, ⟨0, n.time.minute⟩⟩

/-- Input accepted for `start`/`end` in `Event.__init__`: a plain `date`, a
`BeautifulDate` (a `date` subclass), or a `datetime` with an optional timezone
(`none` models a naive datetime). -/
inductive TemporalInput where
  | beautifulDate (d : Date)
  | plainDate (d : Date)
  | dateTime (n : NaiveDT) (tz : Option String)
deriving DecidableEq

/-- Stored form of `Event.start` / `Event.end` after construction: a plain date or a
datetime with an optional timezone. -/
inductive DateOrDateTime where
  | date (d : Date)
  | dateTime (n : NaiveDT) (tz : Option String)
deriving DecidableEq

/-- Python exception as raised by the Event code: the exception class with its message. -/
inductive PyError where
  | typeError (msg : String)
  | valueError (msg : String)
deriving DecidableEq

/-- The TypeMismatch failure (event.py line 113). -/
def typeMismatchError : PyError :=
  .typeError "Start and end must either both be date or both be datetime."

/-- The LimitExceeded failure (event.py lines 130 and 178). -/
def limitExceededError : PyError :=
  .valueError "The maximum number of override reminders is 5."

/-- The ConflictingConfiguration failure (event.py line 133). -/
def conflictingConfigError : PyError :=
  .valueError "Cannot specify both default reminders and overrides at the same time."

/-- Modelled from the spec: `gcsa.attendee.Attendee` is not under src/. Per the spec
an attendee record holds an email plus response status, display name, optionality and
organizer/self flags, all defaulting to absent/false. -/
structure Attendee where
  email : String
  response_status : Option String
  display_name : Option String
  optional : Bool
  is_organizer : Bool
  is_self : Bool
deriving DecidableEq

/-- Input to attendee positions: a raw email string or an already-built Attendee record. -/
inductive AttendeeInput where
  | emailStr (email : String)
  | record (a : Attendee)
deriving DecidableEq

/-- `Event._ensure_attendee_from_email` (event.py lines 181-188): an email string is
wrapped into an Attendee with only the email populated; anything else passes through. -/
def ensure_attendee_from_email : AttendeeInput → Attendee
  | .emailStr s =>
      { email := s, response_status := none, display_name := none,
        optional := false, is_organizer := false, is_self := false }
  | .record a => a

/-- Modelled from the spec: `gcsa.reminders` is not under src/. A reminder override has
a method (popup or email) and a lead time in minutes. -/
inductive ReminderMethod where
  | popup
  | email
deriving DecidableEq

/-- An override reminder record. -/
structure Reminder where
  method : ReminderMethod
  minutes_before_start : Nat
deriving DecidableEq

/-- Modelled from the spec: `PopupReminder(minutes_before_start)` from `gcsa.reminders`. -/
def PopupReminder (minutes_before_start : Nat) : Reminder :=
  ⟨.popup, minutes_before_start⟩

/-- Modelled from the spec: `EmailReminder(minutes_before_start)` from `gcsa.reminders`. -/
def EmailReminder (minutes_before_start : Nat) : Reminder :=
  ⟨.email, minutes_before_start⟩

/-- Modelled from the spec: `gcsa.attachment.Attachment` is not under src/. An attachment
has a title, file URL and MIME type. -/
structure Attachment where
  title : String
  file_url : String
  mime_type : String
deriving DecidableEq

/-- The Event entity, with the fields assigned by `Event.__init__`. The Python attribute
`end` is called `end_` here because `end` is reserved in Lean. -/
structure Event where
  timezone : String
  start : DateOrDateTime
  end_ : DateOrDateTime
  updated : Option String
  event_id : Option String
  summary : String
  description : Option String
  location : Option String
  recurrence : List String
  color_id : Option String
  visibility : String
  attendees : List Attendee
  attachments : List Attachment
  conference_solution : Option String
  reminders : List Reminder
  default_reminders : Bool
  other : List (String × String)
deriving DecidableEq

/-- `insure_date` (event.py lines 115-123): converts a value to a plain date if it is a
`BeautifulDate` (keeping the same year, month and day); leaves anything else unchanged. -/
def insure_date : TemporalInput → DateOrDateTime
  | .beautifulDate d => .date d
  | .plainDate d => .date d
  | .dateTime n tz => .dateTime n tz

/-- Temporal phase of `Event.__init__`: end defaulting (lines 102-107), the same-kind
check with localisation (lines 109-113), and `insure_date` on both values (lines 122-123).
The localisation step is modelled from the spec, since `gcsa.util.date_time_util` is not
under src/: `insure_localisation` leaves an already zone-aware datetime as-is and attaches
the event's timezone to a naive one. -/
def resolveTemporal (start : TemporalInput) (endIn : Option TemporalInput)
    (timezone : String) : Except PyError (DateOrDateTime × DateOrDateTime) :=
  let end1 : TemporalInput :=
    match endIn, start with
    | some e, _ => e
    | none, .dateTime n tz => .dateTime (addOneHour n) tz
    | none, .plainDate d => .plainDate (nextDay d)
    | none, .beautifulDate d => .beautifulDate (nextDay d)
  match start, end1 with
  | .dateTime ns tzs, .dateTime ne tze =>
      .ok (.dateTime ns (some (tzs.getD timezone)), .dateTime ne (some (tze.getD timezone)))
  | .dateTime _ _, _ => .error typeMismatchError
  | _, .dateTime _ _ => .error typeMismatchError
  | s, e => .ok (insure_date s, insure_date e)

/-- `Event.add_reminder` (event.py lines 175-179), as a function from the pre-state to
the raised-or-returned outcome paired with the post-state of the event. The length
check precedes the append, so in the error case the state is returned unchanged. -/
def add_reminder (e : Event) (r : Reminder) : Except PyError Unit × Event :=
  if e.reminders.length > 4 then (.error limitExceededError, e)
  else (.ok (), { e with reminders := e.reminders ++ [r] })

/-- `Event.add_popup_reminder` (event.py lines 171-173). -/
def add_popup_reminder (e : Event) (minutes_before_start : Nat) :
    Except PyError Unit × Event :=
  add_reminder e (PopupReminder minutes_before_start)

/-- `Event.add_email_reminder` (event.py lines 167-169). -/
def add_email_reminder (e : Event) (minutes_before_start : Nat) :
    Except PyError Unit × Event :=
  add_reminder e (EmailReminder minutes_before_start)

/-- `Event.add_reminder` viewed in the `Except` monad, as used during construction,
where an exception propagates and discards the half-built event. -/
def add_reminder_except (e : Event) (r : Reminder) : Except PyError Event :=
  match add_reminder e r with
  | (.ok _, e2) => .ok e2
  | (.error err, _) => .error err

/-- `Event.add_attendee` (event.py lines 158-161). -/
def add_attendee (e : Event) (a : AttendeeInput) : Event :=
  { e with attendees := e.attendees ++ [ensure_attendee_from_email a] }

/-- `Event.add_attachment` (event.py lines 163-165). -/
def add_attachment (e : Event) (file_url title mime_type : String) : Event :=
  { e with attachments := e.attachments ++ [⟨title, file_url, mime_type⟩] }

/-- One optional convenience shortcut: `if minutes is not None: self.add_*_reminder(minutes)`
with the reminder constructor for the given kind. -/
def optAdd (e : Event) (mk : Nat → Reminder) : Option Nat → Except PyError Event
  | some m => add_reminder_except e (mk m)
  | none => .ok e

/-- Convenience reminder shortcuts at the end of `Event.__init__` (event.py lines
149-152): when given, each minutes value is turned into a reminder through the
corresponding add method, popup first, then email; a raise propagates. -/
def applyShortcuts (e : Event) (minutes_before_popup_reminder : Option Nat)
    (minutes_before_email_reminder : Option Nat) : Except PyError Event :=
  match optAdd e PopupReminder minutes_before_popup_reminder with
  | .error err => .error err
  | .ok e1 => optAdd e1 EmailReminder minutes_before_email_reminder

/-- `Event.__init__` (event.py lines 28-152): end defaulting, same-kind check and
localisation, `insure_date` normalisation, attendee normalisation, reminder validation,
field assignment, and the two convenience reminder shortcuts applied last. -/
def mkEvent (summary : String) (start : TemporalInput) (endIn : Option TemporalInput)
    (timezone : String) (event_id : Option String) (description : Option String)
    (location : Option String) (recurrence : List String) (color : Option String)
    (visibility : String) (attendees : List AttendeeInput) (attachments : List Attachment)
    (conference_solution : Option String) (reminders : List Reminder)
    (default_reminders : Bool) (minutes_before_popup_reminder : Option Nat)
    (minutes_before_email_reminder : Option Nat) (updated : Option String)
    (other : List (String × String)) : Except PyError Event :=
  match resolveTemporal start endIn timezone with
  | .error err => .error err
  | .ok (startF, endF) =>
    if reminders.length > 5 then .error limitExceededError
    else if default_reminders && !reminders.isEmpty then .error conflictingConfigError
    else
      applyShortcuts
        { timezone := timezone, start := startF, end_ := endF, updated := updated,
          event_id := event_id, summary := summary, description := description,
          location := location, recurrence := recurrence, color_id := color,
          visibility := visibility,
          attendees := attendees.map ensure_attendee_from_email,
          attachments := attachments, conference_solution := conference_solution,
          reminders := reminders, default_reminders := default_reminders,
          other := other }
        minutes_before_popup_reminder minutes_before_email_reminder

/-- `Event.__eq__` (event.py lines 211-226): field-by-field comparison over exactly the
fields listed in the source. -/
def eqEvent (a b : Event) : Bool :=
  decide (a.start = b.start) && decide (a.end_ = b.end_)
    && decide (a.event_id = b.event_id) && decide (a.summary = b.summary)
    && decide (a.description = b.description) && decide (a.location = b.location)
    && decide (a.recurrence = b.recurrence) && decide (a.color_id = b.color_id)
    && decide (a.visibility = b.visibility) && decide (a.attendees = b.attendees)
    && decide (a.attachments = b.attachments) && decide (a.reminders = b.reminders)
    && decide (a.default_reminders = b.default_reminders) && decide (a.other = b.other)

/-- Python comparison of zone-aware datetimes is by their UTC instants. The model takes
the zone-name-to-UTC-offset mapping (in minutes) as a parameter `off`; the instant value
of a localised datetime is its date ordinal in minutes plus the time of day, minus the
zone offset. A naive datetime (zone `none`) is given offset 0; after construction both
stored datetimes are always zone-aware, so this case does not arise from `mkEvent`. -/
def instantVal (off : String → Int) : NaiveDT × Option String → Int
  | (n, z) =>
      (toOrdinal n.date : Int) * 1440 + n.time.hour * 60 + n.time.minute -
        (match z with | some zn => off zn | none => 0)

/-- `insure_datetime` inside `Event.__lt__` (event.py lines 197-201): a plain date
becomes the localised midnight instant in the given timezone; a datetime is returned
as-is. -/
def insure_datetime (d : DateOrDateTime) (timezone : String) : NaiveDT × Option String :=
  match d with
  | .date dd => (⟨dd, ⟨0, 0⟩⟩, some timezone)
  | .dateTime n z => (n, z)

/-- `Event.__lt__` (event.py lines 196-209): Python tuple comparison of the pairs
(start, end) after `insure_datetime` coercion of each component with the respective
event's own timezone. -/
def ltEvent (off : String → Int) (a b : Event) : Bool :=
  let s := insure_datetime a.start a.timezone
  let e := insure_datetime a.end_ a.timezone
  let os := insure_datetime b.start b.timezone
  let oe := insure_datetime b.end_ b.timezone
  decide (instantVal off s < instantVal off os) ||
    (decide (instantVal off s = instantVal off os) &&
      decide (instantVal off e < instantVal off oe))

/-- The coercion described by the spec's ordering rule: a date-only value is projected
to a zone-localised instant at midnight of that date in the event's own timezone, and a
datetime is used as-is. -/
def coerceSpec (off : String → Int) (e : Event) (d : DateOrDateTime) : Int :=
  match d with
  | .date dd => instantVal off (⟨dd, ⟨0, 0⟩⟩, some e.timezone)
  | .dateTime n z => instantVal off (n, z)

/-- The spec's ordering relation: lexicographic comparison of the coerced
(start, end) pairs. -/
def specLtEvent (off : String → Int) (a b : Event) : Prop :=
  Prod.Lex (· < ·) (· < ·)
    (coerceSpec off a a.start, coerceSpec off a a.end_)
    (coerceSpec off b b.start, coerceSpec off b b.end_)

/-- Python's `isinstance(x, datetime)` on a start/end input value. -/
def isDatetimeInput : TemporalInput → Bool
  | .dateTime _ _ => true
  | _ => false

/-! Helper lemmas about the construction pipeline. -/

/-- Successful `add_reminder` (in the `Except` view) appends the reminder and changes
nothing else. -/
theorem add_reminder_except_ok (e e2 : Event) (r : Reminder)
    (h : add_reminder_except e r = .ok e2) :
    e2 = { e with reminders := e.reminders ++ [r] } := by
  unfold add_reminder_except add_reminder at h
  by_cases hc : e.reminders.length > 4
  · simp [hc] at h
  · simp [hc] at h
    exact h.symm

/-- A successful optional shortcut leaves every field except `reminders` unchanged. -/
theorem optAdd_ok_fields (e e2 : Event) (mk : Nat → Reminder) (o : Option Nat)
    (h : optAdd e mk o = .ok e2) :
    e2.start = e.start ∧ e2.end_ = e.end_ ∧ e2.timezone = e.timezone ∧
    e2.summary = e.summary ∧ e2.attendees = e.attendees ∧
    e2.default_reminders = e.default_reminders := by
  cases o with
  | none =>
    simp [optAdd] at h
    simp [← h]
  | some m =>
    simp [optAdd] at h
    have he := add_reminder_except_ok e e2 (mk m) h
    simp [he]

/-- A successful shortcut phase leaves every field except `reminders` unchanged. -/
theorem applyShortcuts_ok_fields (e0 e : Event) (mp me : Option Nat)
    (h : applyShortcuts e0 mp me = .ok e) :
    e.start = e0.start ∧ e.end_ = e0.end_ ∧ e.timezone = e0.timezone ∧
    e.summary = e0.summary ∧ e.attendees = e0.attendees ∧
    e.default_reminders = e0.default_reminders := by
  unfold applyShortcuts at h
  cases hp : optAdd e0 PopupReminder mp with
  | error err => rw [hp] at h; cases h
  | ok e1 =>
    rw [hp] at h
    obtain ⟨p1, p2, p3, p4, p5, p6⟩ := optAdd_ok_fields e0 e1 PopupReminder mp hp
    obtain ⟨q1, q2, q3, q4, q5, q6⟩ := optAdd_ok_fields e1 e EmailReminder me h
    exact ⟨q1.trans p1, q2.trans p2, q3.trans p3, q4.trans p4, q5.trans p5, q6.trans p6⟩

/-- Successful construction: the stored start/end come from the temporal phase, the
other fields from the arguments, the reminder validation passed, and — when neither
shortcut is used — the reminders list is the validated argument itself. -/
theorem mkEvent_ok_inv (summary : String) (start : TemporalInput)
    (endIn : Option TemporalInput) (timezone : String) (event_id : Option String)
    (description : Option String) (location : Option String) (recurrence : List String)
    (color : Option String) (visibility : String) (attendees : List AttendeeInput)
    (attachments : List Attachment) (conference_solution : Option String)
    (reminders : List Reminder) (default_reminders : Bool) (mp : Option Nat)
    (me : Option Nat) (updated : Option String) (other : List (String × String))
    (e : Event)
    (h : mkEvent summary start endIn timezone event_id description location recurrence
      color visibility attendees attachments conference_solution reminders
      default_reminders mp me updated other = .ok e) :
    ∃ s0 e0, resolveTemporal start endIn timezone = .ok (s0, e0) ∧
      e.start = s0 ∧ e.end_ = e0 ∧ e.timezone = timezone ∧ e.summary = summary ∧
      e.attendees = attendees.map ensure_attendee_from_email ∧
      e.default_reminders = default_reminders ∧
      ¬ reminders.length > 5 ∧
      (default_reminders && !reminders.isEmpty) = false ∧
      (mp = none → me = none → e.reminders = reminders) := by
  unfold mkEvent at h
  split at h
  · cases h
  · rename_i startF endF heq
    split at h
    · cases h
    · split at h
      · cases h
      · rename_i h5 hdc
        obtain ⟨f1, f2, f3, f4, f5, f6⟩ := applyShortcuts_ok_fields _ e mp me h
        refine ⟨startF, endF, heq, f1, f2, f3, f4, by simpa using f5, f6, h5,
          by simpa using hdc, ?_⟩
        intro hmp hme
        subst hmp hme
        simp [applyShortcuts, optAdd] at h
        rw [← h]

/-! Claim theorems. -/

/-- C1: an Event constructed with a date-only start and no end stores
`end = start + 1 day`; one constructed with a datetime start and no end stores
`end = start + 1 hour`, both carrying the same resolved timezone. -/
theorem end_defaults_to_one_day_or_one_hour
    (dd : Date) (n : NaiveDT) (tz : Option String)
    (summary timezone : String) (event_id description location : Option String)
    (recurrence : List String) (color : Option String) (visibility : String)
    (attendees : List AttendeeInput) (attachments : List Attachment)
    (conference_solution : Option String) (reminders : List Reminder)
    (default_reminders : Bool) (mp me : Option Nat) (updated : Option String)
    (other : List (String × String)) (e1 e2 : Event)
    (h1 : mkEvent summary (.plainDate dd) none timezone event_id description location
      recurrence color visibility attendees attachments conference_solution reminders
      default_reminders mp me updated other = .ok e1)
    (h2 : mkEvent summary (.dateTime n tz) none timezone event_id description location
      recurrence color visibility attendees attachments conference_solution reminders
      default_reminders mp me updated other = .ok e2) :
    (e1.start = .date dd ∧ e1.end_ = .date (nextDay dd)) ∧
    (e2.start = .dateTime n (some (tz.getD timezone)) ∧
     e2.end_ = .dateTime (addOneHour n) (some (tz.getD timezone))) := by
  obtain ⟨s0, e0, hrt, hs, he, -, -, -, -, -, -, -⟩ :=
    mkEvent_ok_inv _ _ _ _ _ _ _ _ _ _ _ _ _ _ _ _ _ _ _ _ h1
  obtain ⟨s0', e0', hrt', hs', he', -, -, -, -, -, -, -⟩ :=
    mkEvent_ok_inv _ _ _ _ _ _ _ _ _ _ _ _ _ _ _ _ _ _ _ _ h2
  have c1 : resolveTemporal (.plainDate dd) none timezone =
      .ok (.date dd, .date (nextDay dd)) := rfl
  have c2 : resolveTemporal (.dateTime n tz) none timezone =
      .ok (.dateTime n (some (tz.getD timezone)),
           .dateTime (addOneHour n) (some (tz.getD timezone))) := rfl
  rw [c1] at hrt
  rw [c2] at hrt'
  injection hrt with hp
  injection hp with hA hB
  injection hrt' with hp'
  injection hp' with hA' hB'
  exact ⟨⟨hs.trans hA.symm, he.trans hB.symm⟩, ⟨hs'.trans hA'.symm, he'.trans hB'.symm⟩⟩

/-- Concrete event produced by the date-only construction in the C1 witness. -/
def c1EvDate : Event :=
  { timezone := "UTC", start := .date ⟨2024, 1, 15⟩, end_ := .date ⟨2024, 1, 16⟩,
    updated := none, event_id := none, summary := "m", description := none,
    location := none, recurrence := [], color_id := none, visibility := "default",
    attendees := [], attachments := [], conference_solution := none, reminders := [],
    default_reminders := false, other := [] }

/-- Concrete event produced by the datetime construction in the C1 witness. -/
def c1EvDT : Event :=
  { c1EvDate with
    start := .dateTime ⟨⟨2024, 1, 15⟩, ⟨10, 0⟩⟩ (some "UTC"),
    end_ := .dateTime ⟨⟨2024, 1, 15⟩, ⟨11, 0⟩⟩ (some "UTC") }

/-- Witness for C1: both constructions succeed on concrete inputs and the defaulted
ends are one day and one hour after the starts. -/
theorem end_defaults_witness :
    (c1EvDate.start = .date ⟨2024, 1, 15⟩ ∧
     c1EvDate.end_ = .date (nextDay ⟨2024, 1, 15⟩)) ∧
    (c1EvDT.start = .dateTime ⟨⟨2024, 1, 15⟩, ⟨10, 0⟩⟩ (some "UTC") ∧
     c1EvDT.end_ = .dateTime (addOneHour ⟨⟨2024, 1, 15⟩, ⟨10, 0⟩⟩) (some "UTC")) :=
  end_defaults_to_one_day_or_one_hour ⟨2024, 1, 15⟩ ⟨⟨2024, 1, 15⟩, ⟨10, 0⟩⟩ none "m"
    "UTC" none none none [] none "default" [] [] none [] false none none none []
    c1EvDate c1EvDT (by rfl) (by rfl)

/-- C2: when exactly one of start/end is a datetime, construction raises the
TypeMismatch TypeError and produces no Event. -/
theorem mixed_start_end_kind_raises
    (start endv : TemporalInput) (summary timezone : String)
    (event_id description location : Option String) (recurrence : List String)
    (color : Option String) (visibility : String) (attendees : List AttendeeInput)
    (attachments : List Attachment) (conference_solution : Option String)
    (reminders : List Reminder) (default_reminders : Bool) (mp me : Option Nat)
    (updated : Option String) (other : List (String × String))
    (h : isDatetimeInput start ≠ isDatetimeInput endv) :
    mkEvent summary start (some endv) timezone event_id description location recurrence
      color visibility attendees attachments conference_solution reminders
      default_reminders mp me updated other = .error typeMismatchError := by
  have hrt : resolveTemporal start (some endv) timezone = .error typeMismatchError := by
    cases start <;> cases endv <;> simp [isDatetimeInput] at h <;> rfl
  unfold mkEvent
  rw [hrt]

/-- Witness for C2: a date-only start with a datetime end raises the TypeMismatch
TypeError. -/
theorem mixed_start_end_kind_witness :
    mkEvent "m" (.plainDate ⟨2024, 1, 15⟩)
      (some (.dateTime ⟨⟨2024, 1, 15⟩, ⟨10, 0⟩⟩ none)) "UTC" none none none [] none
      "default" [] [] none [] false none none none [] = .error typeMismatchError :=
  mixed_start_end_kind_raises (.plainDate ⟨2024, 1, 15⟩)
    (.dateTime ⟨⟨2024, 1, 15⟩, ⟨10, 0⟩⟩ none) "m" "UTC" none none none [] none
    "default" [] [] none [] false none none none [] (by decide)

/-- C3 counterexample: constructing with default_reminders=True, an empty reminders
argument, and the popup shortcut succeeds and yields an Event whose default_reminders
is true while its reminders list is non-empty: the invariant claimed for every
construction does not survive the shortcut, which runs after the exclusivity check. -/
theorem default_reminders_shortcut_counterexample :
    Except.map (fun e => (e.default_reminders, e.reminders))
      (mkEvent "m" (.plainDate ⟨2024, 1, 15⟩) none "UTC" none none none [] none
        "default" [] [] none [] true (some 10) none none []) =
      .ok (true, [PopupReminder 10]) := by rfl

/-- C3 (amended): for every Event constructed without the convenience shortcut
arguments, default_reminders=True together with a non-empty reminders list does not
hold at construction time; the shortcuts and the add-reminder methods append without
re-checking this exclusivity and can violate it afterwards. -/
theorem default_reminders_exclusive_at_construction
    (summary : String) (start : TemporalInput) (endIn : Option TemporalInput)
    (timezone : String) (event_id description location : Option String)
    (recurrence : List String) (color : Option String) (visibility : String)
    (attendees : List AttendeeInput) (attachments : List Attachment)
    (conference_solution : Option String) (reminders : List Reminder)
    (default_reminders : Bool) (updated : Option String)
    (other : List (String × String)) (e : Event)
    (h : mkEvent summary start endIn timezone event_id description location recurrence
      color visibility attendees attachments conference_solution reminders
      default_reminders none none updated other = .ok e) :
    ¬(e.default_reminders = true ∧ e.reminders ≠ []) := by
  obtain ⟨s0, e0, -, -, -, -, -, -, hdef, -, hconf, hrem⟩ :=
    mkEvent_ok_inv _ _ _ _ _ _ _ _ _ _ _ _ _ _ _ _ _ _ _ _ h
  rintro ⟨hd, hne⟩
  rw [hrem rfl rfl] at hne
  rw [hdef] at hd
  subst hd
  simp at hconf
  exact hne hconf

/-- Concrete event for the C3 witness: default reminders on, no overrides. -/
def c3Ev : Event := { c1EvDate with default_reminders := true }

/-- Witness for C3 (amended) at a concrete shortcut-free construction. -/
theorem default_reminders_exclusive_witness :
    ¬(c3Ev.default_reminders = true ∧ c3Ev.reminders ≠ []) :=
  default_reminders_exclusive_at_construction "m" (.plainDate ⟨2024, 1, 15⟩) none "UTC"
    none none none [] none "default" [] [] none [] true none [] c3Ev (by rfl)

/-- C4 counterexample: with six reminders and default_reminders=True the construction
raises LimitExceeded, not ConflictingConfiguration as the claim demands. -/
theorem limit_precedes_conflict_counterexample :
    mkEvent "m" (.plainDate ⟨2024, 1, 15⟩) none "UTC" none none none [] none "default"
      [] [] none [PopupReminder 1, PopupReminder 2, PopupReminder 3, PopupReminder 4,
        PopupReminder 5, PopupReminder 6] true none none none [] =
      .error limitExceededError ∧ limitExceededError ≠ conflictingConfigError :=
  ⟨by rfl, by decide⟩

/-- C4 (amended): given start/end that pass the temporal validation, construction
fails with LimitExceeded whenever more than 5 reminders are supplied at once, and with
ConflictingConfiguration whenever default_reminders=True is supplied with a non-empty
reminders argument of at most 5 entries; when both conditions hold, the LimitExceeded
check fires first. -/
theorem construction_reminder_validation
    (summary : String) (start : TemporalInput) (endIn : Option TemporalInput)
    (timezone : String) (event_id description location : Option String)
    (recurrence : List String) (color : Option String) (visibility : String)
    (attendees : List AttendeeInput) (attachments : List Attachment)
    (conference_solution : Option String) (reminders : List Reminder)
    (default_reminders : Bool) (mp me : Option Nat) (updated : Option String)
    (other : List (String × String)) (p : DateOrDateTime × DateOrDateTime)
    (hrt : resolveTemporal start endIn timezone = .ok p)
    (hbad : reminders.length > 5 ∨ (default_reminders = true ∧ reminders ≠ [])) :
    mkEvent summary start endIn timezone event_id description location recurrence color
      visibility attendees attachments conference_solution reminders default_reminders
      mp me updated other =
      .error (if reminders.length > 5 then limitExceededError
              else conflictingConfigError) := by
  obtain ⟨s0, e0⟩ := p
  unfold mkEvent
  simp only [hrt]
  by_cases h5 : reminders.length > 5
  · rw [if_pos h5, if_pos h5]
  · rw [if_neg h5, if_neg h5]
    obtain ⟨hd, hne⟩ := hbad.resolve_left h5
    subst hd
    rw [if_pos ?hc]
    case hc =>
      cases reminders with
      | nil => exact absurd rfl hne
      | cons a l => rfl

/-- Witness for C4 (amended): one override plus default_reminders=True fails with
ConflictingConfiguration. -/
theorem construction_reminder_validation_witness :
    mkEvent "m" (.plainDate ⟨2024, 2, 20⟩) none "UTC" none none none [] none "default"
      [] [] none [EmailReminder 5] true none none none [] =
      .error (if [EmailReminder 5].length > 5 then limitExceededError
              else conflictingConfigError) :=
  construction_reminder_validation "m" (.plainDate ⟨2024, 2, 20⟩) none "UTC" none none
    none [] none "default" [] [] none [EmailReminder 5] true none none none []
    (.date ⟨2024, 2, 20⟩, .date ⟨2024, 2, 21⟩) (by rfl) (Or.inr ⟨rfl, by decide⟩)

/-- C5: add_reminder fails with LimitExceeded and leaves the event unchanged when it
already holds 5 or more reminders, and otherwise appends the reminder; on an event
holding exactly 4 reminders the list size becomes 5. -/
theorem add_reminder_limit (e : Event) (r : Reminder) :
    add_reminder e r =
      (if e.reminders.length ≥ 5 then (.error limitExceededError, e)
       else (.ok (), { e with reminders := e.reminders ++ [r] })) ∧
    (e.reminders.length = 4 → ((add_reminder e r).2).reminders.length = 5) := by
  constructor
  · by_cases h : e.reminders.length ≥ 5
    · have hgt : e.reminders.length > 4 := h
      unfold add_reminder
      rw [if_pos hgt, if_pos h]
    · have hgt : ¬ e.reminders.length > 4 := h
      unfold add_reminder
      rw [if_neg hgt, if_neg h]
  · intro h4
    simp [add_reminder, h4]

/-- Concrete event with four reminders for the C5 witness. -/
def c5Ev : Event :=
  { c1EvDate with
    reminders := [PopupReminder 1, PopupReminder 2, PopupReminder 3, PopupReminder 4] }

/-- Witness for C5: adding to an event holding 4 reminders yields a list of 5. -/
theorem add_reminder_limit_witness :
    ((add_reminder c5Ev (EmailReminder 7)).2).reminders.length = 5 :=
  (add_reminder_limit c5Ev (EmailReminder 7)).2 (by rfl)

/-- C6: an email string supplied to add_attendee — and each string element of the
attendees construction argument — is normalised to an attendee record whose email is
the string and whose other fields are absent/false; add_attendee appends exactly that
record. -/
theorem attendee_email_normalized
    (e : Event) (s : String) (summary : String) (start : TemporalInput)
    (endIn : Option TemporalInput) (timezone : String)
    (event_id description location : Option String) (recurrence : List String)
    (color : Option String) (visibility : String) (atts : List AttendeeInput)
    (attachments : List Attachment) (conference_solution : Option String)
    (reminders : List Reminder) (default_reminders : Bool) (mp me : Option Nat)
    (updated : Option String) (other : List (String × String)) (ev : Event)
    (h : mkEvent summary start endIn timezone event_id description location recurrence
      color visibility atts attachments conference_solution reminders default_reminders
      mp me updated other = .ok ev) :
    ensure_attendee_from_email (.emailStr s) =
      { email := s, response_status := none, display_name := none, optional := false,
        is_organizer := false, is_self := false } ∧
    add_attendee e (.emailStr s) =
      { e with attendees := e.attendees ++
          [{ email := s, response_status := none, display_name := none,
             optional := false, is_organizer := false, is_self := false }] } ∧
    ev.attendees = atts.map ensure_attendee_from_email := by
  refine ⟨rfl, rfl, ?_⟩
  obtain ⟨s0, e0, -, -, -, -, -, hatt, -, -, -, -⟩ :=
    mkEvent_ok_inv _ _ _ _ _ _ _ _ _ _ _ _ _ _ _ _ _ _ _ _ h
  exact hatt

/-- Concrete event for the C6 witness: one attendee normalised from an email string. -/
def c6Ev : Event :=
  { c1EvDate with
    attendees := [{ email := "x@y.z", response_status := none, display_name := none,
                    optional := false, is_organizer := false, is_self := false }] }

/-- Witness for C6 at concrete inputs. -/
theorem attendee_email_normalized_witness :
    ensure_attendee_from_email (.emailStr "a@b.c") =
      { email := "a@b.c", response_status := none, display_name := none,
        optional := false, is_organizer := false, is_self := false } ∧
    add_attendee c1EvDate (.emailStr "a@b.c") =
      { c1EvDate with attendees := c1EvDate.attendees ++
          [{ email := "a@b.c", response_status := none, display_name := none,
             optional := false, is_organizer := false, is_self := false }] } ∧
    c6Ev.attendees = [AttendeeInput.emailStr "x@y.z"].map ensure_attendee_from_email :=
  attendee_email_normalized c1EvDate "a@b.c" "m" (.plainDate ⟨2024, 1, 15⟩) none "UTC"
    none none none [] none "default" [.emailStr "x@y.z"] [] none [] false none none
    none [] c6Ev (by rfl)

/-- Concrete event for the C7 counterexample, with a conference solution set. -/
def c7a : Event := { c1EvDate with conference_solution := some "confA" }

/-- Second concrete event for the C7 counterexample: differs from the first in
conference_solution and timezone only. -/
def c7b : Event :=
  { c1EvDate with
    conference_solution := some "confB",
    timezone := "Europe/Zurich" }

/-- C7 counterexample: two constructed Events that differ in conference_solution and
timezone are nevertheless equal under the code's equality, so equality does not compare
every semantic field other than updated. -/
theorem eq_ignores_some_fields_counterexample :
    mkEvent "m" (.plainDate ⟨2024, 1, 15⟩) none "UTC" none none none [] none "default"
      [] [] (some "confA") [] false none none none [] = .ok c7a ∧
    mkEvent "m" (.plainDate ⟨2024, 1, 15⟩) none "Europe/Zurich" none none none [] none
      "default" [] [] (some "confB") [] false none none none [] = .ok c7b ∧
    eqEvent c7a c7b = true ∧
    c7a.conference_solution ≠ c7b.conference_solution ∧
    c7a.timezone ≠ c7b.timezone :=
  ⟨rfl, rfl, rfl, by decide, by decide⟩

/-- C7 (amended): equality compares exactly start, end, event_id, summary, description,
location, recurrence, color_id, visibility, attendees, attachments, reminders,
default_reminders and other — event_id included — and ignores updated, timezone and
conference_solution. -/
theorem eq_compares_exactly_listed_fields (a b : Event) :
    (eqEvent a b = true ↔
      (a.start = b.start ∧ a.end_ = b.end_ ∧ a.event_id = b.event_id ∧
       a.summary = b.summary ∧ a.description = b.description ∧
       a.location = b.location ∧ a.recurrence = b.recurrence ∧
       a.color_id = b.color_id ∧ a.visibility = b.visibility ∧
       a.attendees = b.attendees ∧ a.attachments = b.attachments ∧
       a.reminders = b.reminders ∧ a.default_reminders = b.default_reminders ∧
       a.other = b.other)) ∧
    (∀ tz cs upd,
      eqEvent { a with timezone := tz, conference_solution := cs, updated := upd } b =
        eqEvent a b) := by
  constructor
  · simp [eqEvent, and_assoc]
  · intro tz cs upd
    simp [eqEvent]

/-- Equation relating the spec-side coercion with the code's `insure_datetime`. -/
theorem coerceSpec_eq_insure (off : String → Int) (e : Event) (d : DateOrDateTime) :
    coerceSpec off e d = instantVal off (insure_datetime d e.timezone) := by
  cases d <;> rfl

/-- C8: the code's Event ordering agrees with the lexicographic order on (start, end)
pairs after coercing date-only values to zone-localised midnight instants in each
event's own timezone, for every zone-offset interpretation. -/
theorem lt_is_lex_on_coerced_pairs (off : String → Int) (a b : Event) :
    ltEvent off a b = true ↔ specLtEvent off a b := by
  simp [ltEvent, specLtEvent, Prod.lex_def, coerceSpec_eq_insure]

/-- C9: a BeautifulDate supplied as start or end is stored as a plain date with the
same year, month and day, the end still defaults to start + 1 day, and the same-kind
check treats it as date-only (a datetime end raises the TypeMismatch TypeError). -/
theorem beautiful_date_normalized
    (d d2 : Date) (n : NaiveDT) (tz : Option String) (summary timezone : String)
    (event_id description location : Option String) (recurrence : List String)
    (color : Option String) (visibility : String) (attendees : List AttendeeInput)
    (attachments : List Attachment) (conference_solution : Option String)
    (reminders : List Reminder) (default_reminders : Bool) (mp me : Option Nat)
    (updated : Option String) (other : List (String × String)) (ev1 ev2 : Event)
    (h1 : mkEvent summary (.beautifulDate d) none timezone event_id description
      location recurrence color visibility attendees attachments conference_solution
      reminders default_reminders mp me updated other = .ok ev1)
    (h2 : mkEvent summary (.beautifulDate d) (some (.beautifulDate d2)) timezone
      event_id description location recurrence color visibility attendees attachments
      conference_solution reminders default_reminders mp me updated other = .ok ev2) :
    (ev1.start = .date d ∧ ev1.end_ = .date (nextDay d)) ∧
    (ev2.start = .date d ∧ ev2.end_ = .date d2) ∧
    mkEvent summary (.beautifulDate d) (some (.dateTime n tz)) timezone event_id
      description location recurrence color visibility attendees attachments
      conference_solution reminders default_reminders mp me updated other =
      .error typeMismatchError := by
  obtain ⟨s0, e0, hrt, hs, he, -, -, -, -, -, -, -⟩ :=
    mkEvent_ok_inv _ _ _ _ _ _ _ _ _ _ _ _ _ _ _ _ _ _ _ _ h1
  obtain ⟨s0', e0', hrt', hs', he', -, -, -, -, -, -, -⟩ :=
    mkEvent_ok_inv _ _ _ _ _ _ _ _ _ _ _ _ _ _ _ _ _ _ _ _ h2
  have c1 : resolveTemporal (.beautifulDate d) none timezone =
      .ok (.date d, .date (nextDay d)) := rfl
  have c2 : resolveTemporal (.beautifulDate d) (some (.beautifulDate d2)) timezone =
      .ok (.date d, .date d2) := rfl
  have c3 : resolveTemporal (.beautifulDate d) (some (.dateTime n tz)) timezone =
      .error typeMismatchError := rfl
  rw [c1] at hrt
  rw [c2] at hrt'
  injection hrt with hp
  injection hp with hA hB
  injection hrt' with hp'
  injection hp' with hA' hB'
  refine ⟨⟨hs.trans hA.symm, he.trans hB.symm⟩,
    ⟨hs'.trans hA'.symm, he'.trans hB'.symm⟩, ?_⟩
  unfold mkEvent
  rw [c3]

/-- Concrete events for the C9 witness. -/
def c9Ev1 : Event := c1EvDate

/-- Concrete event for the C9 witness with an explicit BeautifulDate end. -/
def c9Ev2 : Event := { c1EvDate with end_ := .date ⟨2024, 1, 20⟩ }

/-- Witness for C9 at concrete inputs. -/
theorem beautiful_date_normalized_witness :
    (c9Ev1.start = .date ⟨2024, 1, 15⟩ ∧ c9Ev1.end_ = .date (nextDay ⟨2024, 1, 15⟩)) ∧
    (c9Ev2.start = .date ⟨2024, 1, 15⟩ ∧ c9Ev2.end_ = .date ⟨2024, 1, 20⟩) ∧
    mkEvent "m" (.beautifulDate ⟨2024, 1, 15⟩)
      (some (.dateTime ⟨⟨2024, 1, 15⟩, ⟨10, 0⟩⟩ none)) "UTC" none none none [] none
      "default" [] [] none [] false none none none [] = .error typeMismatchError :=
  beautiful_date_normalized ⟨2024, 1, 15⟩ ⟨2024, 1, 20⟩ ⟨⟨2024, 1, 15⟩, ⟨10, 0⟩⟩ none
    "m" "UTC" none none none [] none "default" [] [] none [] false none none none []
    c9Ev1 c9Ev2 (by rfl) (by rfl)

/-- C10: when add_reminder — or one of the popup/email wrappers — raises LimitExceeded,
the returned event state is exactly the pre-state: the length check precedes the
append, so the failure changes nothing. -/
theorem add_reminder_failure_is_atomic (e : Event) (r : Reminder) (m k : Nat)
    (h : 4 < e.reminders.length) :
    add_reminder e r = (.error limitExceededError, e) ∧
    add_popup_reminder e m = (.error limitExceededError, e) ∧
    add_email_reminder e k = (.error limitExceededError, e) := by
  simp [add_popup_reminder, add_email_reminder, add_reminder, h]

/-- Concrete event with five reminders for the C10 witness. -/
def c10Ev : Event :=
  { c1EvDate with
    reminders := [PopupReminder 1, PopupReminder 2, PopupReminder 3, PopupReminder 4,
      PopupReminder 5] }

/-- Witness for C10: all three add operations fail on a full event and return it
unchanged. -/
theorem add_reminder_failure_atomic_witness :
    add_reminder c10Ev (PopupReminder 6) = (.error limitExceededError, c10Ev) ∧
    add_popup_reminder c10Ev 30 = (.error limitExceededError, c10Ev) ∧
    add_email_reminder c10Ev 60 = (.error limitExceededError, c10Ev) :=
  add_reminder_failure_is_atomic c10Ev (PopupReminder 6) 30 60 (by decide)

end Gcsa
